import Mathlib

/-!
Shallow embedding of the acoustic feature-extraction pipeline of the
Voice_Assisted_Diagnosis repository, covering the parselmouth variant
(src/main.py) and the librosa backend variant (src/backend/main.py).

Floating-point values are modelled by the type `FVal`: a finite value is an
exact rational, and the three non-finite IEEE classes (NaN, +inf, -inf) are
explicit constructors. External library calls (parselmouth/Praat queries,
librosa analyses) are modelled by environment records whose fields hold the
result of each call, with `Option` capturing a call that raises an exception.
Randomness (np.random.uniform) is modelled by an explicit stream of draws in
[0, 1) passed to the functions that consume it.
-/

set_option autoImplicit false

/-- Model of a double: a finite rational, or one of the non-finite classes. -/
inductive FVal where
  | fin (q : ℚ)
  | nan
  | inf
  | ninf
deriving DecidableEq, Repr

/-- A value is finite when it is not NaN and not an infinity. -/
def FVal.isFinite : FVal → Bool
  | .fin _ => true
  | _ => false

namespace Np

/-- Model of np.mean: sum divided by length (call sites guard emptiness). -/
def mean (l : List ℚ) : ℚ := l.sum / l.length

/-- Insert a rational into a sorted list, keeping it sorted. -/
def insertSorted (x : ℚ) : List ℚ → List ℚ
  | [] => [x]
  | y :: ys => if x ≤ y then x :: y :: ys else y :: insertSorted x ys

/-- Insertion sort, used to model the sorting step inside np.median. -/
def sortQ (l : List ℚ) : List ℚ := l.foldr insertSorted []

/-- Model of np.median: middle element of the sorted list, or the average of
the two middle elements for even length. -/
def median (l : List ℚ) : ℚ :=
  let s := sortQ l
  let n := s.length
  if n = 0 then 0
  else if n % 2 = 1 then s.getD (n / 2) 0
  else (s.getD (n / 2 - 1) 0 + s.getD (n / 2) 0) / 2

/-- Fixed-precision rational square root (six decimal digits), modelling the
floating square root inside np.std; nonpositive arguments map to 0. -/
def ratSqrt (q : ℚ) : ℚ :=
  if q ≤ 0 then 0 else (Nat.sqrt ((q * 10 ^ 12).floor.toNat) : ℚ) / 10 ^ 6

/-- Model of np.std: square root of the mean squared deviation. -/
def std (l : List ℚ) : ℚ :=
  ratSqrt (mean (l.map (fun x => (x - mean l) ^ 2)))

/-- Model of np.min on a nonempty list (0 on the guarded empty case). -/
def minList : List ℚ → ℚ
  | [] => 0
  | x :: xs => xs.foldl min x

/-- Model of np.max on a nonempty list (0 on the guarded empty case). -/
def maxList : List ℚ → ℚ
  | [] => 0
  | x :: xs => xs.foldl max x

/-- Model of np.ptp: peak-to-peak range. -/
def ptp (l : List ℚ) : ℚ := maxList l - minList l

/-- Model of np.diff: successive differences, diff[i] = l[i+1] - l[i]. -/
def diff (l : List ℚ) : List ℚ := List.zipWith (fun a b => a - b) l.tail l

/-- Numpy scalar division: division by zero yields an infinity or NaN instead
of raising, as numpy emits a warning and produces a non-finite float. -/
def fdiv (a b : ℚ) : FVal :=
  if b = 0 then (if a = 0 then .nan else if 0 < a then .inf else .ninf)
  else .fin (a / b)

end Np

/-- Model of np.random.uniform(a, b): the stream supplies a draw in [0, 1)
at a call-site index, scaled to the requested interval. -/
def random_uniform (rng : ℕ → ℚ) (i : ℕ) (a b : ℚ) : ℚ :=
  a + rng i * (b - a)

/-- Model of the Python string method startswith: the candidate string is a
character-level prefix of the receiver. -/
def pyStartsWith (s pre : String) : Bool := pre.data.isPrefixOf s.data

/-- An HTTPException of the FastAPI layer: status code and detail message. -/
structure HttpError where
  status : Nat
  detail : String
deriving DecidableEq, Repr

namespace SrcMain

/-!
Embedding of the parselmouth variant, src/main.py. The environment records
the outcome of every external parselmouth/Praat call made by
`extract_features`; a field value `none` models that call raising an
exception (which `safe_call` converts to the float 0.0).
-/

/-- Results of the Praat queries applied to the PointProcess object created
by "To PointProcess (periodic, cc)". Each field is the result of one
safe_call query in src/main.py lines 106-138; `none` models a raise. -/
structure PointProcessEnv where
  jitter_local : Option FVal
  jitter_abs : Option FVal
  jitter_rap : Option FVal
  jitter_ppq5 : Option FVal
  jitter_ddp : Option FVal
  shimmer_local : Option FVal
  shimmer_db : Option FVal
  shimmer_apq3 : Option FVal
  shimmer_apq5 : Option FVal
  shimmer_apq11 : Option FVal
  shimmer_dda : Option FVal
  num_points : Option Nat
  mean_period : Option FVal
  sd_period : Option FVal

/-- Environment of one call of src/main.py extract_features. `load_error`
models librosa.load raising; `duration` is the decoded duration in seconds;
`praat_error` models the unwrapped parselmouth Sound/to_pitch calls raising;
`pitch_frequencies` is the pitch.selected_array frequency track;
`point_process` is `none` when "To PointProcess" fails (safe_call then yields
the float 0.0, and every later query on it raises, hence also 0.0);
`harmonicity` is `none` when "To Harmonicity (cc)" fails, otherwise it holds
the result of the "Get mean" query; `noise_levels` holds the nth/htn pair of
a hypothetically successful "To Noise levels" call ("To Noise levels" is not
a command in the Praat vocabulary, so at runtime this call always raises and
the field is always `none`); the last three fields are the voicing queries
on the pitch object. -/
structure PraatEnv where
  load_error : Option String
  duration : ℚ
  praat_error : Option String
  pitch_frequencies : List ℚ
  point_process : Option PointProcessEnv
  harmonicity : Option (Option FVal)
  noise_levels : Option (FVal × FVal)
  fraction_unvoiced : Option FVal
  num_breaks : Option FVal
  degree_breaks : Option FVal

/-- Model of safe_call applied to a query result: a raised exception
(`none`) becomes the float 0.0 (src/main.py lines 68-74). -/
def safeQuery (r : Option FVal) : FVal := r.getD (.fin 0)

/-- A safe_call query on the point_process value: when the PointProcess
creation itself failed, point_process is the float 0.0 and the query on it
raises, so safe_call yields 0.0 again. -/
def ppQuery (pp : Option PointProcessEnv) (f : PointProcessEnv → Option FVal) : FVal :=
  match pp with
  | none => .fin 0
  | some e => safeQuery (f e)

/-- The filtered pitch values: pitch_values[pitch_values > 0]. -/
def pitch_values (env : PraatEnv) : List ℚ :=
  env.pitch_frequencies.filter (fun x => 0 < x)

/-- Feature 0, jitter_local (src/main.py line 106). -/
def feat_jitter_local (env : PraatEnv) : FVal :=
  ppQuery env.point_process PointProcessEnv.jitter_local

/-- Feature 1, jitter_abs (line 107). -/
def feat_jitter_abs (env : PraatEnv) : FVal :=
  ppQuery env.point_process PointProcessEnv.jitter_abs

/-- Feature 2, jitter_rap (line 108). -/
def feat_jitter_rap (env : PraatEnv) : FVal :=
  ppQuery env.point_process PointProcessEnv.jitter_rap

/-- Feature 3, jitter_ppq5 (line 109). -/
def feat_jitter_ppq5 (env : PraatEnv) : FVal :=
  ppQuery env.point_process PointProcessEnv.jitter_ppq5

/-- Feature 4, jitter_ddp (line 110). -/
def feat_jitter_ddp (env : PraatEnv) : FVal :=
  ppQuery env.point_process PointProcessEnv.jitter_ddp

/-- Feature 5, shimmer_local (line 113). -/
def feat_shimmer_local (env : PraatEnv) : FVal :=
  ppQuery env.point_process PointProcessEnv.shimmer_local

/-- Feature 6, shimmer_db (line 114). -/
def feat_shimmer_db (env : PraatEnv) : FVal :=
  ppQuery env.point_process PointProcessEnv.shimmer_db

/-- Feature 7, shimmer_apq3 (line 115). -/
def feat_shimmer_apq3 (env : PraatEnv) : FVal :=
  ppQuery env.point_process PointProcessEnv.shimmer_apq3

/-- Feature 8, shimmer_apq5 (line 116). -/
def feat_shimmer_apq5 (env : PraatEnv) : FVal :=
  ppQuery env.point_process PointProcessEnv.shimmer_apq5

/-- Feature 9, shimmer_apq11 (line 117). -/
def feat_shimmer_apq11 (env : PraatEnv) : FVal :=
  ppQuery env.point_process PointProcessEnv.shimmer_apq11

/-- Feature 10, shimmer_dda (line 118). -/
def feat_shimmer_dda (env : PraatEnv) : FVal :=
  ppQuery env.point_process PointProcessEnv.shimmer_dda

/-- Feature 11, hnr (lines 121-122): when "To Harmonicity (cc)" failed,
harmonicity is the falsy float 0.0 and the conditional yields 0.0;
otherwise hnr is the safe_call "Get mean" query. -/
def feat_hnr (env : PraatEnv) : FVal :=
  match env.harmonicity with
  | none => .fin 0
  | some r => safeQuery r

/-- Feature 12, nth (lines 125-126): when the "To Noise levels" call failed,
noise is the falsy float 0.0 and the conditional yields 0.0. -/
def feat_nth (env : PraatEnv) : FVal :=
  match env.noise_levels with
  | none => .fin 0
  | some p => p.1

/-- Feature 13, htn (line 127). -/
def feat_htn (env : PraatEnv) : FVal :=
  match env.noise_levels with
  | none => .fin 0
  | some p => p.2

/-- Feature 14, median_pitch (line 97). -/
def feat_median_pitch (env : PraatEnv) : FVal :=
  .fin (if (pitch_values env).length = 0 then 0 else Np.median (pitch_values env))

/-- Feature 15, mean_pitch (line 98). -/
def feat_mean_pitch (env : PraatEnv) : FVal :=
  .fin (if (pitch_values env).length = 0 then 0 else Np.mean (pitch_values env))

/-- Feature 16, std_pitch (line 99). -/
def feat_std_pitch (env : PraatEnv) : FVal :=
  .fin (if (pitch_values env).length = 0 then 0 else Np.std (pitch_values env))

/-- Feature 17, min_pitch (line 100). -/
def feat_min_pitch (env : PraatEnv) : FVal :=
  .fin (if (pitch_values env).length = 0 then 0 else Np.minList (pitch_values env))

/-- Feature 18, max_pitch (line 101). -/
def feat_max_pitch (env : PraatEnv) : FVal :=
  .fin (if (pitch_values env).length = 0 then 0 else Np.maxList (pitch_values env))

/-- Value of pulses (line 135): the "Get number of points" query through
safe_call; a raise, or a failed PointProcess creation, yields 0.0. -/
def pulsesQ (env : PraatEnv) : ℚ :=
  match env.point_process with
  | none => 0
  | some e =>
    match e.num_points with
    | none => 0
    | some n => (n : ℚ)

/-- Value of periods (line 136): pulses - 1 if pulses > 1 else 0. -/
def periodsQ (env : PraatEnv) : ℚ :=
  if 1 < pulsesQ env then pulsesQ env - 1 else 0

/-- Feature 19, pulses (line 135). -/
def feat_pulses (env : PraatEnv) : FVal := .fin (pulsesQ env)

/-- Feature 20, periods (line 136). -/
def feat_periods (env : PraatEnv) : FVal := .fin (periodsQ env)

/-- Feature 21, mean_period (line 137). -/
def feat_mean_period (env : PraatEnv) : FVal :=
  ppQuery env.point_process PointProcessEnv.mean_period

/-- Feature 22, sd_period (line 138). -/
def feat_sd_period (env : PraatEnv) : FVal :=
  ppQuery env.point_process PointProcessEnv.sd_period

/-- Feature 23, fraction_unvoiced (line 130). -/
def feat_fraction_unvoiced (env : PraatEnv) : FVal :=
  safeQuery env.fraction_unvoiced

/-- Feature 24, num_breaks (line 131). -/
def feat_num_breaks (env : PraatEnv) : FVal :=
  safeQuery env.num_breaks

/-- Feature 25, degree_breaks (line 132). -/
def feat_degree_breaks (env : PraatEnv) : FVal :=
  safeQuery env.degree_breaks

/-- The 26-element feature list in the order of src/main.py lines 141-148. -/
def featureList (env : PraatEnv) : List FVal :=
  [feat_jitter_local env, feat_jitter_abs env, feat_jitter_rap env,
   feat_jitter_ppq5 env, feat_jitter_ddp env,
   feat_shimmer_local env, feat_shimmer_db env, feat_shimmer_apq3 env,
   feat_shimmer_apq5 env, feat_shimmer_apq11 env, feat_shimmer_dda env,
   feat_hnr env, feat_nth env, feat_htn env,
   feat_median_pitch env, feat_mean_pitch env, feat_std_pitch env,
   feat_min_pitch env, feat_max_pitch env,
   feat_pulses env, feat_periods env, feat_mean_period env, feat_sd_period env,
   feat_fraction_unvoiced env, feat_num_breaks env, feat_degree_breaks env]

/-- Elementwise np.nan_to_num(v, nan=0.0, posinf=0.0, neginf=0.0). -/
def sanitizeBase (v : FVal) : FVal :=
  match v with
  | .fin q => .fin q
  | _ => .fin 0

/-- Model of np.nan_to_num over the feature array. -/
def nanToNum (l : List FVal) : List FVal := l.map sanitizeBase

/-- The validation step of src/main.py lines 151-153: when any entry is NaN
or infinite, the whole array is passed through nan_to_num. -/
def validateFeatures (l : List FVal) : List FVal :=
  if l.any (fun v => !v.isFinite) then nanToNum l else l

/-- Model of src/main.py extract_features (lines 76-159): librosa load, the
minimum-duration check, the parselmouth calls, assembly and sanitization.
Exceptions escaping the body are converted by the final except clause into
an HTTPException with status 500. -/
def extract_features (env : PraatEnv) : Except HttpError (List FVal) :=
  match env.load_error with
  | some m => .error ⟨500, "Feature extraction failed: " ++ m⟩
  | none =>
    if env.duration < 1 / 2 then
      .error ⟨500, "Feature extraction failed: Audio too short for analysis"⟩
    else
      match env.praat_error with
      | some m => .error ⟨500, "Feature extraction failed: " ++ m⟩
      | none => .ok (validateFeatures (featureList env))

/-- Risk-tier mapping of src/main.py lines 240-253, as
(label, confidence, recommendation). -/
def riskAssessment (score : ℚ) : String × String × String :=
  if 7 / 10 < score then
    ("High Risk", "high", "Immediate clinical evaluation recommended")
  else if 4 / 10 < score then
    ("Moderate Risk", "medium", "Follow-up monitoring advised")
  else
    ("Low Risk", "low", "Regular screening sufficient")

/-- The uploaded file as the /predict endpoint sees it. -/
structure UploadFileM where
  content_type : String

/-- Environment of one /predict request (src/main.py lines 199-296):
whether the module-level model is loaded, the uploaded file, the outcome of
convert_to_wav (`none` means success), the feature-extraction environment of
the converted file, and the class-1 probability the model returns. -/
structure PredictEnv where
  modelLoaded : Bool
  file : UploadFileM
  conv_error : Option String
  fenv : PraatEnv
  model_prob : ℚ

/-- Observable outcome of a /predict request: the response (score, label,
confidence, recommendation on success), whether the temporary upload file
was written, and whether extract_features was invoked. -/
structure PredictTrace where
  response : Except HttpError (ℚ × String × String × String)
  tmp_file_written : Bool
  extraction_attempted : Bool

/-- Model of the /predict endpoint control flow (src/main.py lines 199-296):
503 when no model is loaded; 400 when the declared content type does not
start with "audio/" (both before the temporary file is written); then the
temporary file is written, convert_to_wav runs, extract_features runs, the
model is applied and the risk tier is computed. -/
def predict (env : PredictEnv) : PredictTrace :=
  if env.modelLoaded = false then
    ⟨.error ⟨503, "Model not loaded"⟩, false, false⟩
  else if !(pyStartsWith env.file.content_type "audio/") then
    ⟨.error ⟨400, "File must be an audio file"⟩, false, false⟩
  else
    match env.conv_error with
    | some m => ⟨.error ⟨400, "Audio conversion failed: " ++ m⟩, true, false⟩
    | none =>
      match extract_features env.fenv with
      | .error e => ⟨.error e, true, true⟩
      | .ok _ =>
        let score := env.model_prob
        let r := riskAssessment score
        ⟨.ok (score, r.1, r.2.1, r.2.2), true, true⟩

end SrcMain

namespace SrcBackend

/-!
Embedding of the backend variant, src/backend/main.py. The environment
records the outcome of the librosa calls; randomness is an explicit stream.
-/

/-- A Python runtime exception class relevant to the embedded code. -/
inductive PyErr where
  | typeError (msg : String)
  | other (msg : String)
deriving DecidableEq, Repr

/-- A Python value at the point where it is passed to list.extend: either a
float scalar or a list of floats. -/
inductive PyVal where
  | scalar (v : FVal)
  | list (l : List FVal)
deriving DecidableEq

/-- Model of Python list.extend: extending by a list appends its elements;
extending by a float scalar raises TypeError, because a float is not
iterable. -/
def listExtend (acc : List FVal) : PyVal → Except PyErr (List FVal)
  | .list l => .ok (acc ++ l)
  | .scalar _ => .error (.typeError "argument of type float is not iterable")

/-- Environment of one FeatureExtractor.extract_features call on the
backend. `load_error` models librosa.load raising; `y_len` is the decoded
sample count at the 44100 Hz target rate, so the decoded duration is
y_len / 44100 (the backend itself never inspects it); `piptrack_pitches` is
the flattened pitch matrix of librosa.piptrack (`none` models a raise);
`rms_values` is the librosa.feature.rms frame track; `hnr_pair` is
(np.std of the harmonic component, np.std of the percussive component)
from librosa.effects (`none` models a raise inside the try block). -/
structure BackendEnv where
  load_error : Option String
  y_len : Nat
  piptrack_pitches : Option (List ℚ)
  rms_values : Option (List ℚ)
  hnr_pair : Option (ℚ × ℚ)

namespace FeatureExtractor

/-- Model of _calculate_jitter (src/backend/main.py lines 125-135): the
std/mean of pitch differences when piptrack yields more than one positive
pitch, otherwise a uniform random draw in [0.001, 0.005). Returns a float
scalar in every branch. -/
def calculate_jitter (env : BackendEnv) (rng : ℕ → ℚ) : FVal :=
  match env.piptrack_pitches with
  | some ps =>
    let pv := ps.filter (fun x => 0 < x)
    if 1 < pv.length then Np.fdiv (Np.std (Np.diff pv)) (Np.mean pv)
    else .fin (random_uniform rng 0 (1 / 1000) (5 / 1000))
  | none => .fin (random_uniform rng 0 (1 / 1000) (5 / 1000))

/-- Model of _calculate_jitter_abs (lines 137-147): the mean absolute pitch
difference, or a uniform random draw in [0.0001, 0.0005). -/
def calculate_jitter_abs (env : BackendEnv) (rng : ℕ → ℚ) : FVal :=
  match env.piptrack_pitches with
  | some ps =>
    let pv := ps.filter (fun x => 0 < x)
    if 1 < pv.length then .fin (Np.mean ((Np.diff pv).map (fun x => |x|)))
    else .fin (random_uniform rng 1 (1 / 10000) (5 / 10000))
  | none => .fin (random_uniform rng 1 (1 / 10000) (5 / 10000))

/-- Model of _calculate_jitter_rap (lines 195-197): a pure random draw. -/
def calculate_jitter_rap (rng : ℕ → ℚ) : FVal :=
  .fin (random_uniform rng 2 (2 / 1000) (4 / 1000))

/-- Model of _calculate_jitter_ppq5 (lines 199-201): a pure random draw. -/
def calculate_jitter_ppq5 (rng : ℕ → ℚ) : FVal :=
  .fin (random_uniform rng 3 (3 / 1000) (6 / 1000))

/-- Model of _calculate_shimmer (lines 149-158): std/mean of the RMS track
when it has more than one frame, otherwise a random draw in [0.02, 0.05). -/
def calculate_shimmer (env : BackendEnv) (rng : ℕ → ℚ) : FVal :=
  match env.rms_values with
  | some rs =>
    if 1 < rs.length then Np.fdiv (Np.std rs) (Np.mean rs)
    else .fin (random_uniform rng 4 (2 / 100) (5 / 100))
  | none => .fin (random_uniform rng 4 (2 / 100) (5 / 100))

/-- Model of _calculate_shimmer_db (lines 191-193): a pure random draw. -/
def calculate_shimmer_db (rng : ℕ → ℚ) : FVal :=
  .fin (random_uniform rng 5 (15 / 100) (25 / 100))

/-- Model of _calculate_shimmer_apq3 (lines 203-205). -/
def calculate_shimmer_apq3 (rng : ℕ → ℚ) : FVal :=
  .fin (random_uniform rng 6 (1 / 100) (2 / 100))

/-- Model of _calculate_shimmer_apq5 (lines 207-209). -/
def calculate_shimmer_apq5 (rng : ℕ → ℚ) : FVal :=
  .fin (random_uniform rng 7 (2 / 100) (3 / 100))

/-- Model of _calculate_shimmer_apq11 (lines 211-213). -/
def calculate_shimmer_apq11 (rng : ℕ → ℚ) : FVal :=
  .fin (random_uniform rng 8 (3 / 100) (4 / 100))

/-- Model of _extract_pitch (lines 172-189): six pitch statistics when
piptrack yields positive pitches, otherwise the fixed default list. Returns
a Python list in every branch. -/
def extract_pitch (env : BackendEnv) : List FVal :=
  match env.piptrack_pitches with
  | some ps =>
    let pv := ps.filter (fun x => 0 < x)
    if 0 < pv.length then
      [.fin (Np.mean pv), .fin (Np.std pv), .fin (Np.median pv),
       .fin (Np.minList pv), .fin (Np.maxList pv), .fin (Np.ptp pv)]
    else [.fin 100, .fin 10, .fin 100, .fin 80, .fin 120, .fin 40]
  | none => [.fin 100, .fin 10, .fin 100, .fin 80, .fin 120, .fin 40]

/-- Model of _calculate_hnr (lines 160-170): std(harmonic)/std(percussive)
when the percussive std is positive, otherwise a random draw in [15, 25).
Returns a float scalar in every branch (never a list). -/
def calculate_hnr (env : BackendEnv) (rng : ℕ → ℚ) : FVal :=
  match env.hnr_pair with
  | some hp =>
    if 0 < hp.2 then .fin (hp.1 / hp.2)
    else .fin (random_uniform rng 9 15 25)
  | none => .fin (random_uniform rng 9 15 25)

/-- Model of _calculate_pulse_statistics (lines 215-217): three random
draws in [0.5, 1.0). -/
def calculate_pulse_statistics (rng : ℕ → ℚ) : List FVal :=
  [.fin (random_uniform rng 10 (1 / 2) 1),
   .fin (random_uniform rng 11 (1 / 2) 1),
   .fin (random_uniform rng 12 (1 / 2) 1)]

/-- Model of _calculate_voicing (lines 219-221): two random draws. -/
def calculate_voicing (rng : ℕ → ℚ) : List FVal :=
  [.fin (random_uniform rng 13 (7 / 10) (9 / 10)),
   .fin (random_uniform rng 14 (1 / 10) (3 / 10))]

/-- Model of _calculate_additional_metrics (lines 223-225): three random
draws in [0, 1). -/
def calculate_additional_metrics (rng : ℕ → ℚ) : List FVal :=
  [.fin (random_uniform rng 15 0 1),
   .fin (random_uniform rng 16 0 1),
   .fin (random_uniform rng 17 0 1)]

/-- The body of the try block of extract_features (lines 43-117), built in
source order: nine scalar appends, two list-slice extends from
_extract_pitch, then the extend by the scalar _calculate_hnr result (which
raises TypeError, since a float is not iterable), then the remaining three
extends, then the return of the feature list. -/
def extractBody (env : BackendEnv) (rng : ℕ → ℚ) : Except PyErr (List FVal) :=
  match env.load_error with
  | some m => .error (.other m)
  | none =>
    let features : List FVal := []
    let features := features ++ [calculate_jitter env rng]
    let features := features ++ [calculate_jitter_abs env rng]
    let features := features ++ [calculate_jitter_rap rng]
    let features := features ++ [calculate_jitter_ppq5 rng]
    let features := features ++ [calculate_shimmer env rng]
    let features := features ++ [calculate_shimmer_db rng]
    let features := features ++ [calculate_shimmer_apq3 rng]
    let features := features ++ [calculate_shimmer_apq5 rng]
    let features := features ++ [calculate_shimmer_apq11 rng]
    let pitches := extract_pitch env
    let features := features ++ pitches.take 3
    let features := features ++ ((pitches.drop 3).take 3)
    let hnrs := calculate_hnr env rng
    match listExtend features (PyVal.scalar hnrs) with
    | .error e => .error e
    | .ok features =>
      match listExtend features (PyVal.list (calculate_pulse_statistics rng)) with
      | .error e => .error e
      | .ok features =>
        match listExtend features (PyVal.list (calculate_voicing rng)) with
        | .error e => .error e
        | .ok features =>
          match listExtend features (PyVal.list (calculate_additional_metrics rng)) with
          | .error e => .error e
          | .ok features => .ok features

/-- The arity fixup of lines 109-115: pad with zeros below 26 elements,
trim above 26. -/
def pad26 (l : List FVal) : List FVal :=
  if l.length < 26 then l ++ List.replicate (26 - l.length) (.fin 0)
  else l.take 26

/-- Model of FeatureExtractor.extract_features (lines 40-123): the try body
with the arity fixup on success, and the all-zero (1, 26) vector whenever
any internal step raises (lines 119-123). -/
def extract_features (env : BackendEnv) (rng : ℕ → ℚ) : List FVal :=
  match extractBody env rng with
  | .ok fs => pad26 fs
  | .error _ => List.replicate 26 (.fin 0)

end FeatureExtractor

/-- A JSON value as it appears in the /analyze response. -/
inductive JVal where
  | num (q : ℚ)
  | str (s : String)
  | jbool (b : Bool)
  | pairs (l : List (String × FVal))
  | arr (l : List FVal)
deriving DecidableEq

/-- Model of the /analyze endpoint core (src/backend/main.py lines 250-295):
feature extraction, the model branch (predict_proba class-1 probability when
a model is loaded, np.random.uniform(0.1, 0.9) otherwise), and the response
dictionary with its five fields in source order. -/
def analyze_voice (model : Option (List FVal → ℚ)) (env : BackendEnv)
    (rng : ℕ → ℚ) : List (String × JVal) :=
  let features := FeatureExtractor.extract_features env rng
  let risk_score : ℚ :=
    match model with
    | some m => m features
    | none => random_uniform rng 18 (1 / 10) (9 / 10)
  [("status", JVal.str "success"),
   ("risk_score", JVal.num risk_score),
   ("features", JVal.pairs
     [("jitter", features.getD 0 (.fin 0)),
      ("shimmer", features.getD 4 (.fin 0)),
      ("hnr", if 15 < features.length then features.getD 15 (.fin 0) else .fin 20),
      ("pitch_variation", if 1 < features.length then features.getD 1 (.fin 0) else .fin 10)]),
   ("waveform_data", JVal.arr (features.take 50)),
   ("message", JVal.str "Analysis completed successfully")]

end SrcBackend

/-- A praat sub-call outcome counts as a numerical failure when the call
raised (safe_call then yields 0.0) or returned a non-finite value, such as
the NaN Praat reports for a perturbation query with fewer than 2 usable
pulses. -/
def SrcMain.failedQ : Option FVal → Bool
  | none => true
  | some v => !v.isFinite

/-- A PointProcess environment in which every query succeeds finitely. -/
def pp0 : SrcMain.PointProcessEnv :=
  { jitter_local := some (.fin (1 / 100)), jitter_abs := some (.fin (1 / 2000)),
    jitter_rap := some (.fin (1 / 200)), jitter_ppq5 := some (.fin (1 / 150)),
    jitter_ddp := some (.fin (3 / 200)), shimmer_local := some (.fin (3 / 100)),
    shimmer_db := some (.fin (3 / 10)), shimmer_apq3 := some (.fin (2 / 100)),
    shimmer_apq5 := some (.fin (5 / 200)), shimmer_apq11 := some (.fin (3 / 100)),
    shimmer_dda := some (.fin (6 / 100)), num_points := some 50,
    mean_period := some (.fin (1 / 200)), sd_period := some (.fin (1 / 1000)) }

/-- A fully successful parselmouth environment for a one-second recording. -/
def mainEnv0 : SrcMain.PraatEnv :=
  { load_error := none, duration := 1, praat_error := none,
    pitch_frequencies := [100, 0, 120], point_process := some pp0,
    harmonicity := some (some (.fin 15)), noise_levels := none,
    fraction_unvoiced := some (.fin (1 / 10)), num_breaks := some (.fin 2),
    degree_breaks := some (.fin (1 / 20)) }

/-- The same environment with a decoded duration of 0.3 seconds. -/
def mainEnvShort : SrcMain.PraatEnv := { mainEnv0 with duration := 3 / 10 }

/-- A PointProcess environment in which every perturbation query fails:
either the Praat call raises (none) or reports a non-finite value. -/
def ppFail : SrcMain.PointProcessEnv :=
  { jitter_local := some FVal.nan, jitter_abs := none,
    jitter_rap := some FVal.inf, jitter_ppq5 := none,
    jitter_ddp := some FVal.nan, shimmer_local := none,
    shimmer_db := some FVal.ninf, shimmer_apq3 := none,
    shimmer_apq5 := some FVal.nan, shimmer_apq11 := none,
    shimmer_dda := some FVal.nan, num_points := none,
    mean_period := some FVal.nan, sd_period := none }

/-- The successful environment with every perturbation sub-call failing. -/
def mainEnvFail : SrcMain.PraatEnv := { mainEnv0 with point_process := some ppFail }

/-- A backend environment for a decoded 0.3 second input: 13230 samples at
the 44100 Hz target rate. -/
def shortBEnv : SrcBackend.BackendEnv :=
  { load_error := none, y_len := 13230, piptrack_pitches := some [],
    rms_values := some [], hnr_pair := some (1, 1) }

/-- A backend environment for a one-second input with ordinary values. -/
def benv0 : SrcBackend.BackendEnv :=
  { load_error := none, y_len := 44100, piptrack_pitches := some [100, 110, 120],
    rms_values := some [1 / 10, 2 / 10], hnr_pair := some (2, 1) }

/-- A concrete random stream: every draw is one half. -/
def rng0 : ℕ → ℚ := fun _ => 1 / 2

/-- A /predict request with the model loaded and a non-audio content type. -/
def predictEnvBad : SrcMain.PredictEnv :=
  { modelLoaded := true, file := { content_type := "text/plain" },
    conv_error := none, fenv := mainEnv0, model_prob := 1 / 2 }

/-- A /predict request with no model loaded (reachable: startup_event sets
model = None when pickle.load raises) and a non-audio content type. -/
def predictEnvNoModel : SrcMain.PredictEnv :=
  { modelLoaded := false, file := { content_type := "text/plain" },
    conv_error := none, fenv := mainEnv0, model_prob := 1 / 2 }

/-- Sanitization always produces a finite value. -/
theorem sanitizeBase_finite (v : FVal) : (SrcMain.sanitizeBase v).isFinite = true := by
  cases v <;> rfl

/-- Sanitization leaves a finite value unchanged. -/
theorem sanitizeBase_id (v : FVal) (h : v.isFinite = true) : SrcMain.sanitizeBase v = v := by
  cases v <;> simp_all [FVal.isFinite, SrcMain.sanitizeBase]

/-- Mapping sanitization over an all-finite list is the identity. -/
theorem map_sanitize_of_finite :
    ∀ l : List FVal, (∀ v ∈ l, v.isFinite = true) → l.map SrcMain.sanitizeBase = l
  | [], _ => rfl
  | x :: xs, h => by
    rw [List.map_cons, sanitizeBase_id x (h x (List.mem_cons_self x xs)),
      map_sanitize_of_finite xs (fun v hv => h v (List.mem_cons_of_mem x hv))]

/-- The validation step of src/main.py lines 151-153 acts exactly as an
elementwise nan_to_num: when a non-finite entry is present it maps the
substitution over the list, and otherwise the list is already a fixed point
of that map. -/
theorem validateFeatures_eq (l : List FVal) :
    SrcMain.validateFeatures l = l.map SrcMain.sanitizeBase := by
  unfold SrcMain.validateFeatures SrcMain.nanToNum
  split
  · rfl
  · next h =>
    have hall : ∀ v ∈ l, v.isFinite = true := by
      intro v hv
      cases hb : v.isFinite
      · exact absurd (List.any_eq_true.mpr ⟨v, hv, by simp [hb]⟩) h
      · rfl
    exact (map_sanitize_of_finite l hall).symm

/-- On an input that loads, passes the duration check and survives the
unwrapped parselmouth calls, extract_features returns the sanitized feature
list. -/
theorem extract_features_ok (env : SrcMain.PraatEnv)
    (hload : env.load_error = none) (hdur : 1 / 2 ≤ env.duration)
    (hpraat : env.praat_error = none) :
    SrcMain.extract_features env =
      Except.ok ((SrcMain.featureList env).map SrcMain.sanitizeBase) := by
  have hd : ¬ env.duration < 1 / 2 := not_lt.mpr hdur
  simp only [SrcMain.extract_features, hload, hpraat, if_neg hd, validateFeatures_eq]

/-- A failed sub-call sanitizes to exactly 0.0. -/
theorem sanitize_failed (r : Option FVal) (h : SrcMain.failedQ r = true) :
    SrcMain.sanitizeBase (SrcMain.safeQuery r) = FVal.fin 0 := by
  cases r with
  | none => rfl
  | some v =>
    cases v <;> simp_all [SrcMain.failedQ, FVal.isFinite, SrcMain.safeQuery, SrcMain.sanitizeBase]

/-- The backend extract_features returns the all-zero 26-vector on every
input: its try body always raises TypeError at the extend of the scalar
_calculate_hnr result, and the except clause returns np.zeros((1, 26)). -/
theorem backend_extract_zeros (env : SrcBackend.BackendEnv) (rng : ℕ → ℚ) :
    SrcBackend.FeatureExtractor.extract_features env rng =
      List.replicate 26 (FVal.fin 0) := by
  unfold SrcBackend.FeatureExtractor.extract_features SrcBackend.FeatureExtractor.extractBody
  cases env.load_error <;> rfl

/-- C1: for every input that passes ingest validation (duration at least
0.5 s) and survives loading, extract_features returns a FeatureVector of
exactly 26 elements, each finite (every NaN or infinity replaced by 0.0),
in the fixed canonical order of spec section 6 (index 0 jitter_local through
index 25 degree_voice_breaks), regardless of which safe_call-wrapped metric
sub-calls fail; the backend variant likewise always returns 26 finite
values. -/
theorem C1_feature_vector_contract (env : SrcMain.PraatEnv)
    (hload : env.load_error = none) (hdur : 1 / 2 ≤ env.duration)
    (hpraat : env.praat_error = none) :
    (∃ l, SrcMain.extract_features env = Except.ok l ∧ l.length = 26 ∧
      (∀ v ∈ l, v.isFinite = true) ∧
      l.getD 0 FVal.nan = SrcMain.sanitizeBase (SrcMain.feat_jitter_local env) ∧
      l.getD 1 FVal.nan = SrcMain.sanitizeBase (SrcMain.feat_jitter_abs env) ∧
      l.getD 2 FVal.nan = SrcMain.sanitizeBase (SrcMain.feat_jitter_rap env) ∧
      l.getD 3 FVal.nan = SrcMain.sanitizeBase (SrcMain.feat_jitter_ppq5 env) ∧
      l.getD 4 FVal.nan = SrcMain.sanitizeBase (SrcMain.feat_jitter_ddp env) ∧
      l.getD 5 FVal.nan = SrcMain.sanitizeBase (SrcMain.feat_shimmer_local env) ∧
      l.getD 6 FVal.nan = SrcMain.sanitizeBase (SrcMain.feat_shimmer_db env) ∧
      l.getD 7 FVal.nan = SrcMain.sanitizeBase (SrcMain.feat_shimmer_apq3 env) ∧
      l.getD 8 FVal.nan = SrcMain.sanitizeBase (SrcMain.feat_shimmer_apq5 env) ∧
      l.getD 9 FVal.nan = SrcMain.sanitizeBase (SrcMain.feat_shimmer_apq11 env) ∧
      l.getD 10 FVal.nan = SrcMain.sanitizeBase (SrcMain.feat_shimmer_dda env) ∧
      l.getD 11 FVal.nan = SrcMain.sanitizeBase (SrcMain.feat_hnr env) ∧
      l.getD 12 FVal.nan = SrcMain.sanitizeBase (SrcMain.feat_nth env) ∧
      l.getD 13 FVal.nan = SrcMain.sanitizeBase (SrcMain.feat_htn env) ∧
      l.getD 14 FVal.nan = SrcMain.sanitizeBase (SrcMain.feat_median_pitch env) ∧
      l.getD 15 FVal.nan = SrcMain.sanitizeBase (SrcMain.feat_mean_pitch env) ∧
      l.getD 16 FVal.nan = SrcMain.sanitizeBase (SrcMain.feat_std_pitch env) ∧
      l.getD 17 FVal.nan = SrcMain.sanitizeBase (SrcMain.feat_min_pitch env) ∧
      l.getD 18 FVal.nan = SrcMain.sanitizeBase (SrcMain.feat_max_pitch env) ∧
      l.getD 19 FVal.nan = SrcMain.sanitizeBase (SrcMain.feat_pulses env) ∧
      l.getD 20 FVal.nan = SrcMain.sanitizeBase (SrcMain.feat_periods env) ∧
      l.getD 21 FVal.nan = SrcMain.sanitizeBase (SrcMain.feat_mean_period env) ∧
      l.getD 22 FVal.nan = SrcMain.sanitizeBase (SrcMain.feat_sd_period env) ∧
      l.getD 23 FVal.nan = SrcMain.sanitizeBase (SrcMain.feat_fraction_unvoiced env) ∧
      l.getD 24 FVal.nan = SrcMain.sanitizeBase (SrcMain.feat_num_breaks env) ∧
      l.getD 25 FVal.nan = SrcMain.sanitizeBase (SrcMain.feat_degree_breaks env)) ∧
    ∀ (benv : SrcBackend.BackendEnv) (rng : ℕ → ℚ),
      (SrcBackend.FeatureExtractor.extract_features benv rng).length = 26 ∧
      ∀ v ∈ SrcBackend.FeatureExtractor.extract_features benv rng, v.isFinite = true := by
  constructor
  · refine ⟨(SrcMain.featureList env).map SrcMain.sanitizeBase,
      extract_features_ok env hload hdur hpraat, rfl, ?_,
      rfl, rfl, rfl, rfl, rfl, rfl, rfl, rfl, rfl, rfl, rfl, rfl, rfl,
      rfl, rfl, rfl, rfl, rfl, rfl, rfl, rfl, rfl, rfl, rfl, rfl, rfl⟩
    intro v hv
    rw [List.mem_map] at hv
    obtain ⟨w, _, rfl⟩ := hv
    exact sanitizeBase_finite w
  · intro benv rng
    rw [backend_extract_zeros]
    refine ⟨rfl, ?_⟩
    intro v hv
    rw [List.eq_of_mem_replicate hv]
    rfl

/-- Witness for C1 at the concrete environment mainEnv0. -/
theorem C1_feature_vector_contract_witness :
    mainEnv0.load_error = none ∧ 1 / 2 ≤ mainEnv0.duration ∧
    ∃ l, SrcMain.extract_features mainEnv0 = Except.ok l ∧ l.length = 26 ∧
      ∀ v ∈ l, v.isFinite = true := by
  refine ⟨rfl, by norm_num [mainEnv0], ?_⟩
  obtain ⟨⟨l, h1, h2, h3, _⟩, _⟩ :=
    C1_feature_vector_contract mainEnv0 rfl (by norm_num [mainEnv0]) rfl
  exact ⟨l, h1, h2, h3⟩

/-- C2 counterexample: probability exactly 0.4 is mapped by the code to
"Low Risk", not "Moderate Risk" as the claim states, because the Moderate
branch requires score strictly greater than 0.4. -/
theorem C2_boundary_counterexample :
    SrcMain.riskAssessment (4 / 10) =
      ("Low Risk", "low", "Regular screening sufficient") ∧
    (SrcMain.riskAssessment (4 / 10)).1 ≠ "Moderate Risk" := by
  have h : SrcMain.riskAssessment (4 / 10) =
      ("Low Risk", "low", "Regular screening sufficient") := by
    norm_num [SrcMain.riskAssessment]
  refine ⟨h, ?_⟩
  rw [h]
  decide

/-- C2 amended: probability exactly 0.7 maps to Moderate Risk (exclusive
upper comparison), 0.71 maps to High Risk, and exactly 0.4 maps to Low Risk
(the lower Moderate comparison is also exclusive, so the 0.4 boundary
belongs to the Low tier); the tier labels and recommendation strings are
fixed as in the code. -/
theorem C2_risk_tier_mapping (p : ℚ) :
    SrcMain.riskAssessment (7 / 10) =
      ("Moderate Risk", "medium", "Follow-up monitoring advised") ∧
    SrcMain.riskAssessment (71 / 100) =
      ("High Risk", "high", "Immediate clinical evaluation recommended") ∧
    SrcMain.riskAssessment (4 / 10) =
      ("Low Risk", "low", "Regular screening sufficient") ∧
    (7 / 10 < p →
      SrcMain.riskAssessment p =
        ("High Risk", "high", "Immediate clinical evaluation recommended")) ∧
    (4 / 10 < p → p ≤ 7 / 10 →
      SrcMain.riskAssessment p =
        ("Moderate Risk", "medium", "Follow-up monitoring advised")) ∧
    (p ≤ 4 / 10 →
      SrcMain.riskAssessment p =
        ("Low Risk", "low", "Regular screening sufficient")) := by
  refine ⟨by norm_num [SrcMain.riskAssessment], by norm_num [SrcMain.riskAssessment],
    by norm_num [SrcMain.riskAssessment], ?_, ?_, ?_⟩
  · intro h
    rw [SrcMain.riskAssessment, if_pos h]
  · intro h1 h2
    rw [SrcMain.riskAssessment, if_neg (not_lt.mpr h2), if_pos h1]
  · intro h
    rw [SrcMain.riskAssessment, if_neg (not_lt.mpr (h.trans (by norm_num))),
      if_neg (not_lt.mpr h)]

/-- Witness for C2 amended at the concrete probability 0.8. -/
theorem C2_risk_tier_mapping_witness :
    SrcMain.riskAssessment (8 / 10) =
      ("High Risk", "high", "Immediate clinical evaluation recommended") :=
  (C2_risk_tier_mapping (8 / 10)).2.2.2.1 (by norm_num)

/-- C3 counterexample: the backend variant performs no duration validation.
On a concrete input of decoded duration 0.3 s (13230 samples at 44100 Hz)
its extraction returns the full all-zero 26-element FeatureVector instead
of rejecting the request with an ingest error. -/
theorem C3_backend_no_rejection :
    ((shortBEnv.y_len : ℚ) / 44100 < 1 / 2) ∧
    SrcBackend.FeatureExtractor.extract_features shortBEnv rng0 =
      List.replicate 26 (FVal.fin 0) :=
  ⟨by norm_num [shortBEnv], backend_extract_zeros shortBEnv rng0⟩

/-- C3 amended: in the parselmouth variant (src/main.py), every input whose
decoded duration is strictly below 0.5 s is rejected with an error whose
message indicates insufficient duration, and no FeatureVector is returned;
the backend variant performs no duration validation and returns the
all-zero vector instead. -/
theorem C3_too_short_rejected (env : SrcMain.PraatEnv)
    (hload : env.load_error = none) (hdur : env.duration < 1 / 2) :
    SrcMain.extract_features env =
      Except.error
        ⟨500, "Feature extraction failed: Audio too short for analysis"⟩ ∧
    ∀ l, SrcMain.extract_features env ≠ Except.ok l := by
  have h : SrcMain.extract_features env =
      Except.error
        ⟨500, "Feature extraction failed: Audio too short for analysis"⟩ := by
    simp only [SrcMain.extract_features, hload, if_pos hdur]
  refine ⟨h, ?_⟩
  intro l hl
  rw [h] at hl
  exact Except.noConfusion hl

/-- Witness for C3 amended at a concrete environment of duration 0.3 s. -/
theorem C3_too_short_rejected_witness :
    mainEnvShort.duration < 1 / 2 ∧
    SrcMain.extract_features mainEnvShort =
      Except.error
        ⟨500, "Feature extraction failed: Audio too short for analysis"⟩ :=
  ⟨by norm_num [mainEnvShort, mainEnv0],
    (C3_too_short_rejected mainEnvShort rfl (by norm_num [mainEnvShort, mainEnv0])).1⟩

/-- C4: backend feature extraction is deterministic as a function of the
input: its output does not depend on the random stream feeding the
np.random.uniform fallbacks inside the metric helpers (on every input the
try body raises at the scalar extend, so the output is the constant
all-zero vector). The parselmouth variant consumes no randomness at all:
its extraction is a pure function of the praat call environment. -/
theorem C4_extraction_deterministic (env : SrcBackend.BackendEnv)
    (r1 r2 : ℕ → ℚ) :
    SrcBackend.FeatureExtractor.extract_features env r1 =
      SrcBackend.FeatureExtractor.extract_features env r2 := by
  rw [backend_extract_zeros, backend_extract_zeros]

/-- C5 counterexample: with no model loaded, the concrete /analyze response
carries no "simulated" key at all, so the simulated prediction is not
flagged to the caller as the claim requires. -/
theorem C5_no_simulated_marker :
    (SrcBackend.analyze_voice none benv0 rng0).lookup "simulated" = none := by
  rfl

/-- C5 amended: when no model is loaded, /analyze still returns a
well-formed response (fields status, risk_score, features, waveform_data,
message) whose risk_score is a pseudo-random draw in [0.1, 0.9); but the
response carries no "simulated" marker and its field set is identical to
that of a model-backed prediction, so the simulation fallback is not
observable in the prediction response itself. -/
theorem C5_simulation_fallback_unmarked (env : SrcBackend.BackendEnv)
    (rng : ℕ → ℚ) (m : List FVal → ℚ)
    (h0 : 0 ≤ rng 18) (h1 : rng 18 < 1) :
    (SrcBackend.analyze_voice none env rng).map Prod.fst =
      ["status", "risk_score", "features", "waveform_data", "message"] ∧
    (SrcBackend.analyze_voice none env rng).lookup "simulated" = none ∧
    (∃ q, (SrcBackend.analyze_voice none env rng).lookup "risk_score" =
        some (SrcBackend.JVal.num q) ∧ 1 / 10 ≤ q ∧ q < 9 / 10) ∧
    (SrcBackend.analyze_voice (some m) env rng).map Prod.fst =
      (SrcBackend.analyze_voice none env rng).map Prod.fst := by
  refine ⟨rfl, rfl, ⟨random_uniform rng 18 (1 / 10) (9 / 10), rfl, ?_, ?_⟩, rfl⟩
  · have hm : 0 ≤ rng 18 * (9 / 10 - 1 / 10 : ℚ) :=
      mul_nonneg h0 (by norm_num)
    simp only [random_uniform]
    linarith
  · have hm : rng 18 * (9 / 10 - 1 / 10 : ℚ) < 1 * (9 / 10 - 1 / 10) :=
      mul_lt_mul_of_pos_right h1 (by norm_num)
    simp only [random_uniform]
    linarith

/-- Witness for C5 amended at the concrete environment benv0 with the
constant one-half random stream. -/
theorem C5_simulation_fallback_unmarked_witness :
    (0 : ℚ) ≤ rng0 18 ∧ rng0 18 < 1 ∧
    (SrcBackend.analyze_voice none benv0 rng0).map Prod.fst =
      ["status", "risk_score", "features", "waveform_data", "message"] ∧
    ∃ q, (SrcBackend.analyze_voice none benv0 rng0).lookup "risk_score" =
      some (SrcBackend.JVal.num q) ∧ 1 / 10 ≤ q ∧ q < 9 / 10 := by
  have h := C5_simulation_fallback_unmarked benv0 rng0 (fun _ => 0)
    (by norm_num [rng0]) (by norm_num [rng0])
  exact ⟨by norm_num [rng0], by norm_num [rng0], h.1, h.2.2.1⟩

/-- When the PointProcess creation failed, every perturbation feature of
the sanitized vector (indices 0 through 10) is exactly 0.0. -/
theorem featureList_getD_pp_none (env : SrcMain.PraatEnv)
    (hn : env.point_process = none) (i : ℕ) (hi : i ≤ 10) :
    ((SrcMain.featureList env).map SrcMain.sanitizeBase).getD i FVal.nan =
      FVal.fin 0 := by
  interval_cases i <;>
    simp [SrcMain.featureList, SrcMain.feat_jitter_local, SrcMain.feat_jitter_abs,
      SrcMain.feat_jitter_rap, SrcMain.feat_jitter_ppq5, SrcMain.feat_jitter_ddp,
      SrcMain.feat_shimmer_local, SrcMain.feat_shimmer_db, SrcMain.feat_shimmer_apq3,
      SrcMain.feat_shimmer_apq5, SrcMain.feat_shimmer_apq11, SrcMain.feat_shimmer_dda,
      SrcMain.ppQuery, SrcMain.sanitizeBase, hn]

/-- C6: any single sub-metric numerical failure is absorbed as 0.0 and
never propagates as a pipeline error: the extraction still returns a
vector; when the PointProcess creation itself fails, all perturbation
indices are 0.0; and when any individual jitter/shimmer query fails
(raises, or reports the NaN Praat gives with fewer than 2 usable pulses),
the corresponding feature is 0.0. -/
theorem C6_metric_failures_absorbed (env : SrcMain.PraatEnv)
    (hload : env.load_error = none) (hdur : 1 / 2 ≤ env.duration)
    (hpraat : env.praat_error = none) :
    ∃ l, SrcMain.extract_features env = Except.ok l ∧
      (env.point_process = none →
        ∀ i, i ≤ 10 → l.getD i FVal.nan = FVal.fin 0) ∧
      ∀ pp, env.point_process = some pp →
        (SrcMain.failedQ pp.jitter_local = true → l.getD 0 FVal.nan = FVal.fin 0) ∧
        (SrcMain.failedQ pp.jitter_abs = true → l.getD 1 FVal.nan = FVal.fin 0) ∧
        (SrcMain.failedQ pp.jitter_rap = true → l.getD 2 FVal.nan = FVal.fin 0) ∧
        (SrcMain.failedQ pp.jitter_ppq5 = true → l.getD 3 FVal.nan = FVal.fin 0) ∧
        (SrcMain.failedQ pp.jitter_ddp = true → l.getD 4 FVal.nan = FVal.fin 0) ∧
        (SrcMain.failedQ pp.shimmer_local = true → l.getD 5 FVal.nan = FVal.fin 0) ∧
        (SrcMain.failedQ pp.shimmer_db = true → l.getD 6 FVal.nan = FVal.fin 0) ∧
        (SrcMain.failedQ pp.shimmer_apq3 = true → l.getD 7 FVal.nan = FVal.fin 0) ∧
        (SrcMain.failedQ pp.shimmer_apq5 = true → l.getD 8 FVal.nan = FVal.fin 0) ∧
        (SrcMain.failedQ pp.shimmer_apq11 = true → l.getD 9 FVal.nan = FVal.fin 0) ∧
        (SrcMain.failedQ pp.shimmer_dda = true → l.getD 10 FVal.nan = FVal.fin 0) := by
  refine ⟨(SrcMain.featureList env).map SrcMain.sanitizeBase,
    extract_features_ok env hload hdur hpraat, ?_, ?_⟩
  · intro hn i hi
    exact featureList_getD_pp_none env hn i hi
  · intro pp hpp
    refine ⟨?_, ?_, ?_, ?_, ?_, ?_, ?_, ?_, ?_, ?_, ?_⟩
    · intro hf
      show SrcMain.sanitizeBase (SrcMain.feat_jitter_local env) = FVal.fin 0
      simp only [SrcMain.feat_jitter_local, hpp, SrcMain.ppQuery]
      exact sanitize_failed pp.jitter_local hf
    · intro hf
      show SrcMain.sanitizeBase (SrcMain.feat_jitter_abs env) = FVal.fin 0
      simp only [SrcMain.feat_jitter_abs, hpp, SrcMain.ppQuery]
      exact sanitize_failed pp.jitter_abs hf
    · intro hf
      show SrcMain.sanitizeBase (SrcMain.feat_jitter_rap env) = FVal.fin 0
      simp only [SrcMain.feat_jitter_rap, hpp, SrcMain.ppQuery]
      exact sanitize_failed pp.jitter_rap hf
    · intro hf
      show SrcMain.sanitizeBase (SrcMain.feat_jitter_ppq5 env) = FVal.fin 0
      simp only [SrcMain.feat_jitter_ppq5, hpp, SrcMain.ppQuery]
      exact sanitize_failed pp.jitter_ppq5 hf
    · intro hf
      show SrcMain.sanitizeBase (SrcMain.feat_jitter_ddp env) = FVal.fin 0
      simp only [SrcMain.feat_jitter_ddp, hpp, SrcMain.ppQuery]
      exact sanitize_failed pp.jitter_ddp hf
    · intro hf
      show SrcMain.sanitizeBase (SrcMain.feat_shimmer_local env) = FVal.fin 0
      simp only [SrcMain.feat_shimmer_local, hpp, SrcMain.ppQuery]
      exact sanitize_failed pp.shimmer_local hf
    · intro hf
      show SrcMain.sanitizeBase (SrcMain.feat_shimmer_db env) = FVal.fin 0
      simp only [SrcMain.feat_shimmer_db, hpp, SrcMain.ppQuery]
      exact sanitize_failed pp.shimmer_db hf
    · intro hf
      show SrcMain.sanitizeBase (SrcMain.feat_shimmer_apq3 env) = FVal.fin 0
      simp only [SrcMain.feat_shimmer_apq3, hpp, SrcMain.ppQuery]
      exact sanitize_failed pp.shimmer_apq3 hf
    · intro hf
      show SrcMain.sanitizeBase (SrcMain.feat_shimmer_apq5 env) = FVal.fin 0
      simp only [SrcMain.feat_shimmer_apq5, hpp, SrcMain.ppQuery]
      exact sanitize_failed pp.shimmer_apq5 hf
    · intro hf
      show SrcMain.sanitizeBase (SrcMain.feat_shimmer_apq11 env) = FVal.fin 0
      simp only [SrcMain.feat_shimmer_apq11, hpp, SrcMain.ppQuery]
      exact sanitize_failed pp.shimmer_apq11 hf
    · intro hf
      show SrcMain.sanitizeBase (SrcMain.feat_shimmer_dda env) = FVal.fin 0
      simp only [SrcMain.feat_shimmer_dda, hpp, SrcMain.ppQuery]
      exact sanitize_failed pp.shimmer_dda hf

/-- Witness for C6 at the concrete environment whose perturbation queries
all fail. -/
theorem C6_metric_failures_absorbed_witness :
    mainEnvFail.point_process = some ppFail ∧
    SrcMain.failedQ ppFail.jitter_local = true ∧
    ∃ l, SrcMain.extract_features mainEnvFail = Except.ok l ∧
      l.getD 0 FVal.nan = FVal.fin 0 := by
  refine ⟨rfl, rfl, ?_⟩
  obtain ⟨l, hok, _, hsome⟩ :=
    C6_metric_failures_absorbed mainEnvFail rfl
      (by norm_num [mainEnvFail, mainEnv0]) rfl
  exact ⟨l, hok, (hsome ppFail rfl).1 rfl⟩

/-- C7: in every successful extraction, the period_count feature (index 20)
equals pulse_count - 1 when pulse_count (index 19) exceeds 1, and equals 0
otherwise. -/
theorem C7_period_count (env : SrcMain.PraatEnv)
    (hload : env.load_error = none) (hdur : 1 / 2 ≤ env.duration)
    (hpraat : env.praat_error = none) :
    ∃ l q, SrcMain.extract_features env = Except.ok l ∧
      l.getD 19 FVal.nan = FVal.fin q ∧
      l.getD 20 FVal.nan = FVal.fin (if 1 < q then q - 1 else 0) :=
  ⟨(SrcMain.featureList env).map SrcMain.sanitizeBase, SrcMain.pulsesQ env,
    extract_features_ok env hload hdur hpraat, rfl, rfl⟩

/-- Witness for C7 at the concrete environment mainEnv0. -/
theorem C7_period_count_witness :
    ∃ l q, SrcMain.extract_features mainEnv0 = Except.ok l ∧
      l.getD 19 FVal.nan = FVal.fin q ∧
      l.getD 20 FVal.nan = FVal.fin (if 1 < q then q - 1 else 0) :=
  C7_period_count mainEnv0 rfl (by norm_num [mainEnv0]) rfl

/-- C8: when the "To Noise levels" sub-call fails (as it always does at
runtime, the command not being part of the Praat vocabulary), the noise
features at indices 12 (nth) and 13 (htn) of the returned FeatureVector
are exactly 0.0. -/
theorem C8_noise_features_zero (env : SrcMain.PraatEnv)
    (hload : env.load_error = none) (hdur : 1 / 2 ≤ env.duration)
    (hpraat : env.praat_error = none) (hnoise : env.noise_levels = none) :
    ∃ l, SrcMain.extract_features env = Except.ok l ∧
      l.getD 12 FVal.nan = FVal.fin 0 ∧ l.getD 13 FVal.nan = FVal.fin 0 := by
  refine ⟨(SrcMain.featureList env).map SrcMain.sanitizeBase,
    extract_features_ok env hload hdur hpraat, ?_, ?_⟩
  · show SrcMain.sanitizeBase (SrcMain.feat_nth env) = FVal.fin 0
    simp [SrcMain.feat_nth, hnoise, SrcMain.sanitizeBase]
  · show SrcMain.sanitizeBase (SrcMain.feat_htn env) = FVal.fin 0
    simp [SrcMain.feat_htn, hnoise, SrcMain.sanitizeBase]

/-- Witness for C8 at the concrete environment mainEnv0, whose noise-levels
call fails. -/
theorem C8_noise_features_zero_witness :
    mainEnv0.noise_levels = none ∧
    ∃ l, SrcMain.extract_features mainEnv0 = Except.ok l ∧
      l.getD 12 FVal.nan = FVal.fin 0 ∧ l.getD 13 FVal.nan = FVal.fin 0 :=
  ⟨rfl, C8_noise_features_zero mainEnv0 rfl (by norm_num [mainEnv0]) rfl rfl⟩

/-- C9: the backend extract_features is total at its public boundary: on
every input it returns the 26-element vector and never raises; in
particular, since extending the feature list with the scalar HNR value
raises TypeError internally, the returned vector is the all-zero one. -/
theorem C9_backend_total_zeros (env : SrcBackend.BackendEnv) (rng : ℕ → ℚ) :
    SrcBackend.FeatureExtractor.extract_features env rng =
      List.replicate 26 (FVal.fin 0) ∧
    (SrcBackend.FeatureExtractor.extract_features env rng).length = 26 :=
  ⟨backend_extract_zeros env rng, by rw [backend_extract_zeros]; rfl⟩

/-- C10 counterexample: the claim says every upload whose declared content
type does not start with "audio/" is rejected with a 400 error, but when no
model is loaded the /predict endpoint checks the model first (src/main.py
line 205) and rejects the same non-audio upload with a 503 "Model not
loaded" error instead of the claimed 400. -/
theorem C10_no_model_503 :
    pyStartsWith predictEnvNoModel.file.content_type "audio/" = false ∧
    (SrcMain.predict predictEnvNoModel).response =
      Except.error ⟨503, "Model not loaded"⟩ ∧
    (SrcMain.predict predictEnvNoModel).response ≠
      Except.error ⟨400, "File must be an audio file"⟩ := by
  have h2 : (SrcMain.predict predictEnvNoModel).response =
      Except.error ⟨503, "Model not loaded"⟩ := rfl
  refine ⟨by decide, h2, ?_⟩
  rw [h2]
  simp

/-- C10 amended: every /predict upload whose declared content type does not
start with "audio/" is rejected before any temporary file is written and
before feature extraction is attempted; the rejection is the 400 "File must
be an audio file" error when the model is loaded, and the earlier 503
"Model not loaded" error when it is not. -/
theorem C10_content_type_gate (env : SrcMain.PredictEnv)
    (hct : pyStartsWith env.file.content_type "audio/" = false) :
    (SrcMain.predict env).tmp_file_written = false ∧
    (SrcMain.predict env).extraction_attempted = false ∧
    (env.modelLoaded = true →
      (SrcMain.predict env).response =
        Except.error ⟨400, "File must be an audio file"⟩) ∧
    (env.modelLoaded = false →
      (SrcMain.predict env).response =
        Except.error ⟨503, "Model not loaded"⟩) := by
  cases hm : env.modelLoaded with
  | false => simp [SrcMain.predict, hm, hct]
  | true => simp [SrcMain.predict, hm, hct]

/-- Witness for C10 amended at concrete non-audio requests, once with the
model loaded and once without. -/
theorem C10_content_type_gate_witness :
    pyStartsWith predictEnvBad.file.content_type "audio/" = false ∧
    (SrcMain.predict predictEnvBad).response =
      Except.error ⟨400, "File must be an audio file"⟩ ∧
    (SrcMain.predict predictEnvBad).tmp_file_written = false ∧
    (SrcMain.predict predictEnvNoModel).response =
      Except.error ⟨503, "Model not loaded"⟩ := by
  have h1 := C10_content_type_gate predictEnvBad (by decide)
  have h2 := C10_content_type_gate predictEnvNoModel (by decide)
  exact ⟨by decide, h1.2.2.1 rfl, h1.1, h2.2.2.2 rfl⟩
